import Mathlib

/-!
Verification development for the Cerberus Go client.

The definitions below are a shallow embedding of the client's source code:
HTTP headers become association lists, `time.Time` instants become integers
(seconds), the network is abstracted by passing each operation the status
code and decoded body the server would answer with, and Go's `(value, error)`
returns become `Except`.  Every definition mirrors one function of the
source; comments name the file it comes from.
-/

set_option autoImplicit false

namespace Cerberus

/-- A parsed URL as produced by Go's `net/url.Parse`, restricted to the
fields the client reads (`Path` and `RawQuery` for validation, the rest is
carried along unchanged). -/
structure URL where
  scheme : String
  host : String
  path : String
  rawQuery : String
deriving DecidableEq, Repr

/-- HTTP headers, modelled as an association list of name/value pairs. -/
def Headers : Type := List (String × String)

instance : DecidableEq Headers := by
  unfold Headers
  infer_instance

/-- Go `http.Header.Set`: replace any existing value for the key. -/
def setHeader (hs : Headers) (k v : String) : Headers :=
  (k, v) :: (hs.filter (fun p => p.1 ≠ k) : List (String × String))

/-- Go `http.Header.Del`: remove the key. -/
def delHeader (hs : Headers) (k : String) : Headers :=
  (hs.filter (fun p => p.1 ≠ k) : List (String × String))

/-- Go `http.Header.Get`: first value for the key, or `""` when absent. -/
def getHeader (hs : Headers) (k : String) : String :=
  match (hs : List (String × String)).find? (fun p => p.1 = k) with
  | some p => p.2
  | none => ""

/-- One entry of `api.ErrorResponse.Errors` (api/types.go `ErrorDetail`). -/
structure ErrorDetail where
  code : Int
  message : String
  metadata : List (String × String)
deriving DecidableEq, Repr

/-- The structured error envelope decoded from a non-success body
(api/types.go `ErrorResponse`). -/
structure ErrorResponse where
  errorID : String
  errors : List ErrorDetail
deriving DecidableEq, Repr

/-- Outcome of running `encoding/json.Decoder.Decode` on a response body:
an empty body yields `io.EOF`, a syntactically bad body yields some other
decode error, and otherwise a value of the target type is produced. -/
inductive BodyDecode (α : Type) where
  | eof
  | malformed (msg : String)
  | ok (val : α)
deriving DecidableEq, Repr

/-- The error values the client can return, one constructor per distinct
Go error: the sentinels are compared by identity in the source, so they are
distinct constructors here; `wrapped` stands for a fresh `fmt.Errorf`. -/
inductive CerbError where
  | unauthenticated
  | unauthorized
  | sdbNotFound
  | bodyNotReturned
  | apiEnvelope (e : ErrorResponse)
  | wrapped (msg : String)
deriving DecidableEq, Repr

/-- v3/utils/utils.go `ParseAPIError` (identical to cerberus.go
`handleAPIError`): decode the body into an `ErrorResponse`; `io.EOF` and a
decoded envelope with an empty `ErrorID` both map to the sentinel
`ErrorBodyNotReturned`; any other decode failure is wrapped. -/
def parseAPIError (r : BodyDecode ErrorResponse) : CerbError :=
  match r with
  | .eof => .bodyNotReturned
  | .malformed msg => .wrapped ("Error while parsing API error response: " ++ msg)
  | .ok apiErr =>
      if apiErr.errorID = "" then .bodyNotReturned
      else .apiEnvelope apiErr

/-- api/types.go `UserClientToken`: the token and its lease duration in
seconds (only the fields the auth code reads). -/
structure UserClientToken where
  clientToken : String
  duration : Int
deriving DecidableEq, Repr

/-- api/types.go `MFADevice`. -/
structure MFADevice where
  id : String
  name : String
deriving DecidableEq, Repr

/-- api/types.go `UserAuthData`. -/
structure UserAuthData where
  clientToken : UserClientToken
  stateToken : String
  devices : List MFADevice
deriving DecidableEq, Repr

/-- api/types.go `AuthStatus` value `AuthUserNeedsMFA` (the type is a Go
string; statuses are compared as strings). -/
def AuthUserNeedsMFA : String := "mfa_req"

/-- api/types.go `UserAuthResponse`. -/
structure UserAuthResponse where
  status : String
  data : UserAuthData
deriving DecidableEq, Repr

/-- api/types.go `IAMAuthResponse` (fields read by the STS strategy). -/
structure IAMAuthResponse where
  token : String
  duration : Int
  metadata : List (String × String)
deriving DecidableEq, Repr

/-- The versioned server endpoints the auth code can contact; operations
below also return the list of endpoints they requested, so that theorems
can speak about which calls were made. -/
inductive Endpoint where
  | userLogin
  | mfaCheck
  | userRefresh
  | authLogout
  | stsIdentity
  | iamPrincipal
deriving DecidableEq, Repr

/-- utils/utils.go `CheckAndParse`: 401/403 map to the unauthorized
sentinel, any other non-200 status is wrapped, then the body is decoded as
a `UserAuthResponse` (a decode failure is wrapped too). -/
def checkAndParse (status : Nat) (body : BodyDecode UserAuthResponse) :
    Except CerbError UserAuthResponse :=
  if status = 401 ∨ status = 403 then .error .unauthorized
  else if status ≠ 200 then
    .error (.wrapped ("Error while trying to authenticate. Got HTTP response code " ++ toString status))
  else
    match body with
    | .ok u => .ok u
    | _ => .error (.wrapped ("Error while trying to parse response from Cerberus"))

/-- auth/auth.go package-level `Refresh`: GET `/v2/auth/user/refresh` with
the caller's headers, then `CheckAndParse` the answer.  The network is
abstracted by the status/body the server replies with. -/
def authRefresh (status : Nat) (body : BodyDecode UserAuthResponse) :
    Except CerbError UserAuthResponse × List Endpoint :=
  (checkAndParse status body, [.userRefresh])

/-- auth/auth.go package-level `Logout`: DELETE `/v1/auth`; any status
other than 204 (`StatusNoContent`) is an error. -/
def authLogout (status : Nat) : Except CerbError Unit × List Endpoint :=
  if status ≠ 204 then
    (.error (.wrapped ("Unable to log out. Got HTTP response code " ++ toString status)), [.authLogout])
  else (.ok (), [.authLogout])

/-- auth/auth.go (v3) `expiryDelta`: the fixed safety skew subtracted from
a token's lease, 60 seconds. -/
def expiryDelta : Int := 60

/-- auth/token.go `TokenAuth`: a preexisting static token.  The struct has
no expiry field. -/
structure TokenAuth where
  token : String
  headers : Headers
  baseURL : URL
deriving DecidableEq

/-- auth/token.go `TokenAuth.IsAuthenticated`: `t.token != ""`.  The
function never reads the clock. -/
def TokenAuth.isAuthenticated (t : TokenAuth) : Bool :=
  t.token ≠ ""

/-- auth/token.go `TokenAuth.GetToken`. -/
def TokenAuth.getToken (t : TokenAuth) : Except CerbError String :=
  if ¬ t.isAuthenticated then .error .unauthenticated
  else .ok t.token

/-- auth/token.go `TokenAuth.Refresh`: guard on `IsAuthenticated`, then
call the package-level `Refresh` and install the new token. -/
def TokenAuth.refresh (t : TokenAuth) (status : Nat) (body : BodyDecode UserAuthResponse) :
    Except CerbError TokenAuth × List Endpoint :=
  if ¬ t.isAuthenticated then (.error .unauthenticated, [])
  else
    match authRefresh status body with
    | (.error e, reqs) => (.error e, reqs)
    | (.ok r, reqs) =>
        (.ok { t with token := r.data.clientToken.clientToken,
                      headers := setHeader t.headers ("X-Cerberus-Token") r.data.clientToken.clientToken },
         reqs)

/-- auth/token.go `TokenAuth.Logout`: guard on `IsAuthenticated`, then the
package-level `Logout`, then clear the token and its header. -/
def TokenAuth.logout (t : TokenAuth) (status : Nat) :
    Except CerbError TokenAuth × List Endpoint :=
  if ¬ t.isAuthenticated then (.error .unauthenticated, [])
  else
    match authLogout status with
    | (.error e, reqs) => (.error e, reqs)
    | (.ok _, reqs) =>
        (.ok { t with token := "", headers := delHeader t.headers ("X-Cerberus-Token") }, reqs)

/-- auth/token.go `TokenAuth.GetHeaders`. -/
def TokenAuth.getHeaders (t : TokenAuth) : Except CerbError Headers :=
  if ¬ t.isAuthenticated then .error .unauthenticated
  else .ok t.headers

/-- auth/token.go (v3) `TokenAuth.GetExpiry`: always a zero time and a
fresh generic error. -/
def TokenAuth.getExpiry (_t : TokenAuth) : Except CerbError Int :=
  .error (.wrapped ("Expiry time not set"))

/-- auth/user.go `UserAuth`: username/password strategy state. -/
structure UserAuth where
  username : String
  password : String
  baseURL : URL
  token : String
  expiry : Int
  headers : Headers
deriving DecidableEq

/-- auth/user.go `UserAuth.IsAuthenticated`:
`len(u.token) > 0 && time.Now().Before(u.expiry)`, at clock reading `now`. -/
def UserAuth.isAuthenticatedAt (u : UserAuth) (now : Int) : Bool :=
  decide (0 < u.token.length) && decide (now < u.expiry)

/-- auth/user.go `UserAuth.setToken`: store the token, mirror it into the
`X-Cerberus-Token` header, and set the expiry to now plus the lease
duration minus the fixed `expiryDelta` skew. -/
def UserAuth.setToken (u : UserAuth) (token : String) (duration : Int) (now : Int) : UserAuth :=
  { u with token := token,
           headers := setHeader u.headers ("X-Cerberus-Token") token,
           expiry := now + duration - expiryDelta }

/-- auth/user.go `UserAuth.Refresh`: guard on `IsAuthenticated`, then the
package-level `Refresh`, then `setToken` with the returned token and
lease duration. -/
def UserAuth.refresh (u : UserAuth) (now : Int) (status : Nat)
    (body : BodyDecode UserAuthResponse) : Except CerbError UserAuth × List Endpoint :=
  if ¬ u.isAuthenticatedAt now then (.error .unauthenticated, [])
  else
    match authRefresh status body with
    | (.error e, reqs) => (.error e, reqs)
    | (.ok r, reqs) =>
        (.ok (u.setToken r.data.clientToken.clientToken r.data.clientToken.duration now), reqs)

/-- auth/user.go `UserAuth.Logout`. -/
def UserAuth.logout (u : UserAuth) (now : Int) (status : Nat) :
    Except CerbError UserAuth × List Endpoint :=
  if ¬ u.isAuthenticatedAt now then (.error .unauthenticated, [])
  else
    match authLogout status with
    | (.error e, reqs) => (.error e, reqs)
    | (.ok _, reqs) =>
        (.ok { u with token := "", headers := delHeader u.headers ("X-Cerberus-Token") }, reqs)

/-- auth/user.go `UserAuth.GetHeaders`. -/
def UserAuth.getHeaders (u : UserAuth) (now : Int) : Except CerbError Headers :=
  if ¬ u.isAuthenticatedAt now then .error .unauthenticated
  else .ok u.headers

/-- auth/user.go `UserAuth.GetExpiry`: the stored expiry whenever the token
is non-empty (no expiry check), a generic error otherwise. -/
def UserAuth.getExpiry (u : UserAuth) : Except CerbError Int :=
  if 0 < u.token.length then .ok u.expiry
  else .error (.wrapped ("Expiry time not set"))

/-- The continuation of auth/user.go `UserAuth.authenticate` after the
`/v2/auth/user` challenge: either the login completed and the token is
stored, or the server demanded a step-up (MFA) challenge. -/
inductive LoginStep where
  | mfaChallenge (stateToken : String) (deviceID : String)
  | completed (next : UserAuth)
deriving DecidableEq

/-- auth/user.go `UserAuth.authenticate`, the branch after `CheckAndParse`
succeeds: on `AuthUserNeedsMFA` the code reads `r.Data.Devices[0].ID`,
an index that panics when the device list is empty (`none` here);
otherwise it calls `setToken`. -/
def UserAuth.processLoginResponse (u : UserAuth) (now : Int) (r : UserAuthResponse) :
    Option LoginStep :=
  if r.status = AuthUserNeedsMFA then
    match r.data.devices.get? 0 with
    | none => none
    | some d => some (.mfaChallenge r.data.stateToken d.id)
  else
    some (.completed (u.setToken r.data.clientToken.clientToken r.data.clientToken.duration now))

/-- auth/user.go `UserAuth.authenticate`: GET `/v2/auth/user` with basic
credentials, `CheckAndParse`, then `processLoginResponse`.  The outer
`Option` is `none` exactly on the out-of-bounds device access. -/
def UserAuth.authenticate (u : UserAuth) (now : Int) (status : Nat)
    (body : BodyDecode UserAuthResponse) :
    Option (Except CerbError LoginStep) × List Endpoint :=
  match checkAndParse status body with
  | .error e => (some (.error e), [.userLogin])
  | .ok r =>
      match u.processLoginResponse now r with
      | none => (none, [.userLogin])
      | some step => (some (.ok step), [.userLogin])

/-- auth/user.go `UserAuth.doMFA`: POST the state token, device id and the
one-time code to `/v2/auth/mfa_check`, `CheckAndParse`, then `setToken`. -/
def UserAuth.doMFA (u : UserAuth) (now : Int) (status : Nat)
    (body : BodyDecode UserAuthResponse) : Except CerbError UserAuth × List Endpoint :=
  match checkAndParse status body with
  | .error e => (.error e, [.mfaCheck])
  | .ok r =>
      (.ok (u.setToken r.data.clientToken.clientToken r.data.clientToken.duration now), [.mfaCheck])

/-- v3/auth/sts.go `STSAuth`: the cloud-identity (signed STS
GetCallerIdentity proof) strategy state. -/
structure STSAuth where
  token : String
  region : String
  expiry : Int
  baseURL : URL
  headers : Headers
deriving DecidableEq

/-- v3/auth/sts.go `STSAuth.IsAuthenticated`. -/
def STSAuth.isAuthenticatedAt (a : STSAuth) (now : Int) : Bool :=
  decide (0 < a.token.length) && decide (now < a.expiry)

/-- v3/auth/sts.go `STSAuth.authenticate`: sign the fixed
`Action=GetCallerIdentity` payload, POST it to `v2/auth/sts-identity`,
classify 401/403 and other non-200 statuses, decode an `IAMAuthResponse`,
and store the token with expiry now + lease - `expiryDelta`.  `signOk`
abstracts whether the ambient-credential signing step succeeded (a failure
returns before any request is made); the Go code appends the
`ParseAPIError` text to the non-200 message. -/
def STSAuth.authenticate (a : STSAuth) (now : Int) (signOk : Bool) (status : Nat)
    (body : BodyDecode IAMAuthResponse) : Except CerbError STSAuth × List Endpoint :=
  if ¬ signOk then (.error (.wrapped ("Problem signing request to Cerberus")), [])
  else if status = 401 ∨ status = 403 then
    (.error (.wrapped ("Invalid credentials given. Verify that the role you are currently using is valid with the AWS CLI or with gimme-aws-creds.")), [.stsIdentity])
  else if status ≠ 200 then
    (.error (.wrapped ("Error while trying to authenticate. Got HTTP response code " ++ toString status)), [.stsIdentity])
  else
    match body with
    | .ok r =>
        (.ok { a with token := r.token,
                      headers := setHeader a.headers ("X-Cerberus-Token") r.token,
                      expiry := now + r.duration - expiryDelta }, [.stsIdentity])
    | _ => (.error (.wrapped ("Error while trying to parse response from Cerberus")), [.stsIdentity])

/-- v3/auth/sts.go `STSAuth.Refresh`: guard on `IsAuthenticated`, then a
full re-authentication via `authenticate` — the refresh endpoint is never
used (the source comments that the service rate-limits refreshes). -/
def STSAuth.refresh (a : STSAuth) (now : Int) (signOk : Bool) (status : Nat)
    (body : BodyDecode IAMAuthResponse) : Except CerbError STSAuth × List Endpoint :=
  if ¬ a.isAuthenticatedAt now then (.error .unauthenticated, [])
  else a.authenticate now signOk status body

/-- v3/auth/sts.go `STSAuth.Logout`. -/
def STSAuth.logout (a : STSAuth) (now : Int) (status : Nat) :
    Except CerbError STSAuth × List Endpoint :=
  if ¬ a.isAuthenticatedAt now then (.error .unauthenticated, [])
  else
    match authLogout status with
    | (.error e, reqs) => (.error e, reqs)
    | (.ok _, reqs) =>
        (.ok { a with token := "", headers := delHeader a.headers ("X-Cerberus-Token") }, reqs)

/-- v3/auth/sts.go `STSAuth.GetHeaders`. -/
def STSAuth.getHeaders (a : STSAuth) (now : Int) : Except CerbError Headers :=
  if ¬ a.isAuthenticatedAt now then .error .unauthenticated
  else .ok a.headers

/-- v3/auth/sts.go `STSAuth.GetExpiry`: the stored expiry whenever the
token is non-empty, a generic error otherwise. -/
def STSAuth.getExpiry (a : STSAuth) : Except CerbError Int :=
  if 0 < a.token.length then .ok a.expiry
  else .error (.wrapped ("Expiry time not set."))

/-- auth/aws.go `AWSAuth`: the v2-era IAM-role strategy state. -/
structure AWSAuth where
  token : String
  region : String
  roleARN : String
  expiry : Int
  baseURL : URL
  headers : Headers
deriving DecidableEq

/-- auth/aws.go `AWSAuth.IsAuthenticated`. -/
def AWSAuth.isAuthenticatedAt (a : AWSAuth) (now : Int) : Bool :=
  decide (0 < a.token.length) && decide (now < a.expiry)

/-- auth/aws.go `AWSAuth.Refresh`: unlike the STS strategy this calls the
package-level `Refresh` (the `/v2/auth/user/refresh` endpoint) and stores
the new token with expiry now + lease (no skew subtracted here). -/
def AWSAuth.refresh (a : AWSAuth) (now : Int) (status : Nat)
    (body : BodyDecode UserAuthResponse) : Except CerbError AWSAuth × List Endpoint :=
  if ¬ a.isAuthenticatedAt now then (.error .unauthenticated, [])
  else
    match authRefresh status body with
    | (.error e, reqs) => (.error e, reqs)
    | (.ok r, reqs) =>
        (.ok { a with token := r.data.clientToken.clientToken,
                      expiry := now + r.data.clientToken.duration,
                      headers := setHeader a.headers ("X-Vault-Token") r.data.clientToken.clientToken },
         reqs)

/-- An HTTP response as the executor sees it: status code and headers
(bodies are handled separately by each caller through `BodyDecode`). -/
structure HttpResp where
  status : Nat
  headers : Headers
deriving DecidableEq

/-- cerberus/cerberus.go `DoRequestWithBody`, the segment after the
backoff-retried send succeeded (lines around the `X-Refresh-Token` check):
when the response carries `X-Refresh-Token: true` the executor calls the
strategy's `Refresh`; a refresh failure returns the original response
together with a wrapping error; otherwise the executor fetches the new
token and installs it on the secondary vault client.  The strategy calls
are abstracted by their outcomes; the third component is the vault
client's token after the call. -/
def doRequestRefreshCheck (resp : HttpResp) (refreshResult : Except CerbError Unit)
    (getTokenResult : Except CerbError String) (vaultToken : String) :
    Option HttpResp × Option CerbError × String :=
  if getHeader resp.headers ("X-Refresh-Token") = "true" then
    match refreshResult with
    | .error _ => (some resp, some (.wrapped ("Error refreshing token")), vaultToken)
    | .ok _ =>
        match getTokenResult with
        | .error e => (none, some e, vaultToken)
        | .ok tok => (some resp, none, tok)
  else (some resp, none, vaultToken)

/-- cerberus/cerberus.go `DoRequestWithBody`: the literal settings of the
`backoff.ExponentialBackOff` used for every request, in milliseconds. -/
structure BackOffSettings where
  initialInterval : Nat
  randomizationFactor : Nat
  multiplier : Nat
  maxInterval : Nat
  maxElapsedTime : Nat
deriving DecidableEq, Repr

/-- The settings constructed inside `DoRequestWithBody`:
100ms initial interval, no randomization, multiplier 2, 600ms interval cap
and 600ms elapsed-time ceiling. -/
def cerberusBackOff : BackOffSettings :=
  { initialInterval := 100
    randomizationFactor := 0
    multiplier := 2
    maxInterval := 600
    maxElapsedTime := 600 }

/-- `backoff.ExponentialBackOff.incrementCurrentInterval`: double the
interval, capped at the maximum. -/
def nextInterval (s : BackOffSettings) (interval : Nat) : Nat :=
  if s.maxInterval ≤ interval * s.multiplier then s.maxInterval
  else interval * s.multiplier

/-- The `httpbackoff`/`backoff` retry loop driven by `NextBackOff`, in the
worst case where every attempt fails with a retryable error: each element
of `durations` is how long one attempted request takes; after a failed
attempt the loop stops when the elapsed time exceeds `maxElapsedTime`,
otherwise it sleeps the current interval and doubles it (cap
`maxInterval`).  Returns the number of attempts made; the list bounds the
recursion but the theorems quantify over all lists. -/
def retryGo (s : BackOffSettings) : List Nat → Nat → Nat → Nat
  | [], _, _ => 0
  | d :: rest, elapsed, interval =>
      let e := elapsed + d
      if s.maxElapsedTime < e then 1
      else 1 + retryGo s rest (e + interval) (nextInterval s interval)

/-- The number of attempts the executor's retry loop makes when every
request fails with a retryable error and request `k` lasts
`durations.get k` milliseconds. -/
def retryAttempts (s : BackOffSettings) (durations : List Nat) : Nat :=
  retryGo s durations 0 s.initialInterval

/-- api/types.go `SafeDepositBox` (fields relevant to decoding). -/
structure SafeDepositBox where
  id : String
  name : String
  path : String
deriving DecidableEq, Repr

/-- api/types.go `MetadataResponse` (fields relevant to decoding). -/
structure MetadataResponse where
  hasNext : Bool
  nextOffset : Int
  limit : Int
  offset : Int
deriving DecidableEq, Repr

/-- cerberus/cerberus.go `parseResponse`: a plain JSON decode whose failure
is returned to the caller unchanged. -/
def parseResponse {α : Type} (body : BodyDecode α) : Except CerbError α :=
  match body with
  | .ok v => .ok v
  | .eof => .error (.wrapped ("EOF"))
  | .malformed msg => .error (.wrapped msg)

/-- cerberus/sdb.go `SDB.Get`: `respPresent`/`status` describe the response
attached to a `DoRequest` error (`reqErr`), which the retrier produces for
every non-2xx status; with no error a 200 status is demanded and the box
decoded. -/
def sdbGet (id : String) (respPresent : Bool) (status : Nat) (reqErr : Option CerbError)
    (body : BodyDecode SafeDepositBox) : Except CerbError SafeDepositBox :=
  if id.length = 0 then .error .sdbNotFound
  else
    match reqErr with
    | some _ =>
        if respPresent ∧ status = 404 then .error .sdbNotFound
        else .error (.wrapped ("Error while trying to get SDB"))
    | none =>
        if status ≠ 200 then
          .error (.wrapped ("Error while trying to GET SDB. Got HTTP status code " ++ toString status))
        else parseResponse body

/-- Go `unicode.IsSpace` restricted to the ASCII whitespace characters
(the inputs the client handles are resource identifiers). -/
def goIsSpace (c : Char) : Bool :=
  c = ' ' ∨ c = '\t' ∨ c = '\n' ∨ c = '\r'

/-- Go `strings.TrimSpace`: drop leading and trailing whitespace. -/
def trimSpace (s : String) : String :=
  String.mk (((s.data.dropWhile goIsSpace).reverse.dropWhile goIsSpace).reverse)

/-- cerberus/sdb.go `SDB.Update`: trims the id, maps 404 to the sentinel,
404/400 handling on the error path.  On the error-free non-200 path the Go
code compares `utils.ParseAPIError`'s result against the cerberus
package's own `ErrorBodyNotReturned` instance by interface identity; the
utils package returns its distinct sentinel instance, so that comparison
is always false and the parsed error is returned as is (the wrapped
status-code message is dead code). -/
def sdbUpdate (id : String) (respPresent : Bool) (status : Nat) (reqErr : Option CerbError)
    (errBody : BodyDecode ErrorResponse) (body : BodyDecode SafeDepositBox) :
    Except CerbError SafeDepositBox :=
  if trimSpace id = "" then .error .sdbNotFound
  else
    match reqErr with
    | some _ =>
        if respPresent ∧ status = 404 then .error .sdbNotFound
        else if respPresent ∧ status = 400 then .error (parseAPIError errBody)
        else .error (.wrapped ("Error while updating SDB"))
    | none =>
        if status ≠ 200 then .error (parseAPIError errBody)
        else parseResponse body

/-- cerberus/metadata.go `Metadata.List`: defaults the limit, decodes the
envelope only for a 400 on the error path, and wraps everything else. -/
def metadataList (limit offset : Nat) (respPresent : Bool) (status : Nat)
    (reqErr : Option CerbError) (errBody : BodyDecode ErrorResponse)
    (body : BodyDecode MetadataResponse) : Except CerbError MetadataResponse :=
  let _effectiveLimit := if limit = 0 then 100 else limit
  let _off := offset
  match reqErr with
  | some _ =>
      if respPresent ∧ status = 400 then .error (parseAPIError errBody)
      else .error (.wrapped ("Error while trying to get roles"))
  | none =>
      if status ≠ 200 then
        .error (.wrapped ("Error while trying to GET metadata. Got HTTP status code " ++ toString status))
      else parseResponse body

/-- utils/utils.go `ValidateURL`: parse the string (the `net/url.Parse`
call is abstracted by the oracle `parse`, so that the theorems can
quantify over what the string parses to) and reject any URL carrying a
path or a query string. -/
def validateURL (parse : String → Except String URL) (fullURL : String) :
    Except String URL :=
  match parse fullURL with
  | .error e => .error e
  | .ok parsed =>
      if parsed.path ≠ "" then .error ("Given URL contained a path")
      else if parsed.rawQuery ≠ "" then .error ("Given URL contained a query string")
      else .ok parsed

/-- auth/token.go `NewTokenAuth`: the `CERBERUS_URL` / `CERBERUS_TOKEN`
environment variables (passed as `envURL`/`envToken`, `""` meaning unset)
take precedence, the arguments must be non-empty, the URL is validated and
the strategy stores the parsed URL unchanged. -/
def newTokenAuth (parse : String → Except String URL) (envURL envToken : String)
    (cerberusURL token : String) : Except String TokenAuth :=
  let cerberusURL := if envURL ≠ "" then envURL else cerberusURL
  let token := if envToken ≠ "" then envToken else token
  if cerberusURL.length = 0 then .error ("Cerberus URL cannot be empty")
  else if token.length = 0 then .error ("Token cannot be empty")
  else
    match validateURL parse cerberusURL with
    | .error e => .error e
    | .ok parsedURL =>
        .ok { baseURL := parsedURL,
              headers := setHeader (setHeader (setHeader [] ("Content-Type") ("application/json"))
                ("Accept") ("application/json")) ("X-Vault-Token") token,
              token := token }

/-- auth/user.go `NewUserAuth`. -/
def newUserAuth (parse : String → Except String URL) (envURL : String)
    (cerberusURL username password : String) : Except String UserAuth :=
  let cerberusURL := if envURL ≠ "" then envURL else cerberusURL
  if username.length = 0 then .error ("Username cannot be empty")
  else if password.length = 0 then .error ("Password cannot be empty")
  else if cerberusURL.length = 0 then .error ("Cerberus URL cannot be empty")
  else
    match validateURL parse cerberusURL with
    | .error e => .error e
    | .ok parsedURL =>
        .ok { username := username, password := password, baseURL := parsedURL,
              token := "", expiry := 0,
              headers := [(("Content-Type"), ("application/json")),
                          (("X-Cerberus-Client"), ("CerberusGoClient"))] }

/-- auth/aws.go `NewAWSAuth`. -/
def newAWSAuth (parse : String → Except String URL) (envURL : String)
    (cerberusURL roleARN region : String) : Except String AWSAuth :=
  let cerberusURL := if envURL ≠ "" then envURL else cerberusURL
  if roleARN.length = 0 then .error ("Role ARN should not be empty")
  else if region.length = 0 then .error ("Region should not be nil")
  else if cerberusURL.length = 0 then .error ("Cerberus URL cannot be empty")
  else
    match validateURL parse cerberusURL with
    | .error e => .error e
    | .ok parsedURL =>
        .ok { region := region, roleARN := roleARN, baseURL := parsedURL,
              token := "", expiry := 0, headers := [] }

/-- v3/auth/sts.go `NewSTSAuth` (no environment-variable override). -/
def newSTSAuth (parse : String → Except String URL) (cerberusURL region : String) :
    Except String STSAuth :=
  if region.length = 0 then .error ("Region cannot be empty")
  else if cerberusURL.length = 0 then .error ("Cerberus URL cannot be empty")
  else
    match validateURL parse cerberusURL with
    | .error e => .error e
    | .ok parsedURL =>
        .ok { region := region, baseURL := parsedURL, token := "", expiry := 0,
              headers := [(("Content-Type"), ("application/json"))] }

/-- A concrete valid base URL, used by the witness theorems. -/
def exampleURL : URL :=
  { scheme := "https", host := "test.example.com", path := "", rawQuery := "" }

/-- C7: `ParseAPIError` maps an empty body (EOF) and a decoded envelope
with an empty error identifier to the sentinel `ErrorBodyNotReturned`,
maps an envelope with a non-empty identifier to that structured envelope,
and never returns an envelope whose identifier is empty — so the sentinel
and a well-formed API error are never confused. -/
theorem C7_parseAPIError_classification (b : BodyDecode ErrorResponse) :
    (b = .eof → parseAPIError b = .bodyNotReturned) ∧
    (∀ e : ErrorResponse, b = .ok e → e.errorID = "" → parseAPIError b = .bodyNotReturned) ∧
    (∀ e : ErrorResponse, b = .ok e → e.errorID ≠ "" → parseAPIError b = .apiEnvelope e) ∧
    (∀ e : ErrorResponse, parseAPIError b = .apiEnvelope e → e.errorID ≠ "") := by
  refine ⟨?_, ?_, ?_, ?_⟩
  · rintro rfl; rfl
  · rintro e rfl h
    simp [parseAPIError, h]
  · rintro e rfl h
    simp [parseAPIError, h]
  · intro e h
    cases b with
    | eof => simp [parseAPIError] at h
    | malformed m => simp [parseAPIError] at h
    | ok v =>
        by_cases hv : v.errorID = "" <;> simp [parseAPIError, hv] at h
        rcases h with ⟨rfl⟩
        exact hv

/-- C7 witness: a concrete envelope with a non-empty identifier is
returned as the structured envelope, and an empty body yields the
sentinel. -/
theorem C7_witness :
    parseAPIError (.ok { errorID := "a041", errors := [] }) =
      .apiEnvelope { errorID := "a041", errors := [] } ∧
    parseAPIError .eof = .bodyNotReturned :=
  ⟨(C7_parseAPIError_classification (.ok { errorID := "a041", errors := [] })).2.2.1
      { errorID := "a041", errors := [] } rfl (by decide),
   (C7_parseAPIError_classification .eof).1 rfl⟩

/-- C1: when the executed request's response carries the header
`X-Refresh-Token: true`, the executor refreshes the strategy; on success
it installs the newly obtained token on the secondary vault client and
returns the original response with no error, and on a refresh failure it
returns the original response together with a non-nil (wrapping) error. -/
theorem C1_refresh_signal_handling (resp : HttpResp) (refreshResult : Except CerbError Unit)
    (getTokenResult : Except CerbError String) (vaultToken : String)
    (hsig : getHeader resp.headers ("X-Refresh-Token") = "true") :
    (∀ tok, refreshResult = .ok () → getTokenResult = .ok tok →
        doRequestRefreshCheck resp refreshResult getTokenResult vaultToken =
          (some resp, none, tok)) ∧
    (∀ e, refreshResult = .error e →
        doRequestRefreshCheck resp refreshResult getTokenResult vaultToken =
          (some resp, some (.wrapped ("Error refreshing token")), vaultToken)) := by
  constructor
  · rintro tok rfl rfl
    simp [doRequestRefreshCheck, hsig]
  · rintro e rfl
    simp [doRequestRefreshCheck, hsig]

/-- C1 witness: a concrete response carrying the refresh signal, with a
succeeding refresh and token fetch, comes back unchanged with the vault
token updated. -/
theorem C1_witness :
    doRequestRefreshCheck { status := 200, headers := [(("X-Refresh-Token"), ("true"))] }
        (.ok ()) (.ok ("new-token")) ("old-token") =
      (some { status := 200, headers := [(("X-Refresh-Token"), ("true"))] }, none, "new-token") :=
  (C1_refresh_signal_handling { status := 200, headers := [(("X-Refresh-Token"), ("true"))] }
      (.ok ()) (.ok ("new-token")) ("old-token") (by decide)).1 ("new-token") rfl rfl

/-- C4 counterexample: the static-token strategy reports a non-empty token
as authenticated even though it stores no expiry instant at all — its
`GetExpiry` never yields one — so "IsAuthenticated returns true only if
the current time is before the stored expiry" fails for it. -/
theorem C4_counterexample :
    TokenAuth.isAuthenticated
        { token := "kylo-ren", headers := [], baseURL := exampleURL } = true ∧
    ¬ ∃ e : Int, TokenAuth.getExpiry
        { token := "kylo-ren", headers := [], baseURL := exampleURL } = .ok e := by
  constructor
  · decide
  · rintro ⟨e, h⟩
    simp [TokenAuth.getExpiry] at h

/-- C4 amended: the username/password, AWS and STS strategies report
authenticated exactly when the token is non-empty and the current time is
strictly before the stored expiry; the static-token strategy reports
authenticated exactly when its token is non-empty, independent of time
(it stores no expiry and never expires until logout). -/
theorem C4_amended_isAuthenticated (t : TokenAuth) (u : UserAuth) (a : AWSAuth)
    (s : STSAuth) (now : Int) :
    (t.isAuthenticated = true ↔ t.token ≠ "") ∧
    (u.isAuthenticatedAt now = true ↔ 0 < u.token.length ∧ now < u.expiry) ∧
    (a.isAuthenticatedAt now = true ↔ 0 < a.token.length ∧ now < a.expiry) ∧
    (s.isAuthenticatedAt now = true ↔ 0 < s.token.length ∧ now < s.expiry) := by
  refine ⟨?_, ?_, ?_, ?_⟩ <;>
    simp [TokenAuth.isAuthenticated, UserAuth.isAuthenticatedAt,
      AWSAuth.isAuthenticatedAt, STSAuth.isAuthenticatedAt]

/-- C2 counterexample: a username/password session whose token is set but
expired holds no valid token, yet `GetExpiry` returns the stored expiry
with no error at all — not the sentinel unauthenticated error. -/
theorem C2_counterexample :
    UserAuth.isAuthenticatedAt
        { username := "u", password := "p", baseURL := exampleURL,
          token := "t", expiry := 0, headers := [] } 5 = false ∧
    UserAuth.getExpiry
        { username := "u", password := "p", baseURL := exampleURL,
          token := "t", expiry := 0, headers := [] } = .ok 0 := by
  constructor
  · decide
  · rfl

/-- C2 amended: for the static-token, username/password and cloud-identity
strategies, Refresh, Logout and GetHeaders return the sentinel
`api.ErrorUnauthenticated` and contact no endpoint when the strategy holds
no valid token; GetExpiry never uses the sentinel — the static-token
strategy always returns a generic "Expiry time not set" error, while the
other two return the stored expiry without error whenever the token is
non-empty (even when expired) and the generic error only when it is
empty. -/
theorem C2_amended_unauthenticated_guards (t : TokenAuth) (u : UserAuth) (s : STSAuth)
    (now : Int) (status : Nat) (ubody : BodyDecode UserAuthResponse)
    (ibody : BodyDecode IAMAuthResponse) (signOk : Bool)
    (ht : t.isAuthenticated = false) (hu : u.isAuthenticatedAt now = false)
    (hs : s.isAuthenticatedAt now = false) :
    t.refresh status ubody = (.error .unauthenticated, []) ∧
    t.logout status = (.error .unauthenticated, []) ∧
    t.getHeaders = .error .unauthenticated ∧
    u.refresh now status ubody = (.error .unauthenticated, []) ∧
    u.logout now status = (.error .unauthenticated, []) ∧
    u.getHeaders now = .error .unauthenticated ∧
    s.refresh now signOk status ibody = (.error .unauthenticated, []) ∧
    s.logout now status = (.error .unauthenticated, []) ∧
    s.getHeaders now = .error .unauthenticated ∧
    t.getExpiry = .error (.wrapped ("Expiry time not set")) ∧
    (u.token.length = 0 → u.getExpiry = .error (.wrapped ("Expiry time not set"))) ∧
    (0 < u.token.length → u.getExpiry = .ok u.expiry) ∧
    (s.token.length = 0 → s.getExpiry = .error (.wrapped ("Expiry time not set."))) ∧
    (0 < s.token.length → s.getExpiry = .ok s.expiry) := by
  refine ⟨?_, ?_, ?_, ?_, ?_, ?_, ?_, ?_, ?_, ?_, ?_, ?_, ?_, ?_⟩
  · simp [TokenAuth.refresh, ht]
  · simp [TokenAuth.logout, ht]
  · simp [TokenAuth.getHeaders, ht]
  · simp [UserAuth.refresh, hu]
  · simp [UserAuth.logout, hu]
  · simp [UserAuth.getHeaders, hu]
  · simp [STSAuth.refresh, hs]
  · simp [STSAuth.logout, hs]
  · simp [STSAuth.getHeaders, hs]
  · rfl
  · intro h
    simp [UserAuth.getExpiry, h]
  · intro h
    simp [UserAuth.getExpiry, h]
  · intro h
    simp [STSAuth.getExpiry, h]
  · intro h
    simp [STSAuth.getExpiry, h]

/-- C2 amended witness: concrete unauthenticated sessions (empty token for
the static strategy, expired token for the other two) hit every guard. -/
theorem C2_amended_witness :
    TokenAuth.refresh { token := "", headers := [], baseURL := exampleURL } 200 .eof =
      (.error .unauthenticated, []) ∧
    UserAuth.getHeaders
        { username := "u", password := "p", baseURL := exampleURL,
          token := "t", expiry := 0, headers := [] } 5 = .error .unauthenticated ∧
    STSAuth.refresh
        { token := "t", region := "us-west-2", expiry := 0, baseURL := exampleURL,
          headers := [] } 5 true 200 .eof = (.error .unauthenticated, []) := by
  have h := C2_amended_unauthenticated_guards
    { token := "", headers := [], baseURL := exampleURL }
    { username := "u", password := "p", baseURL := exampleURL,
      token := "t", expiry := 0, headers := [] }
    { token := "t", region := "us-west-2", expiry := 0, baseURL := exampleURL,
      headers := [] }
    5 200 .eof .eof true (by decide) (by decide) (by decide)
  exact ⟨h.1, h.2.2.2.2.2.1, h.2.2.2.2.2.2.1⟩

/-- C5: a successful username/password authentication (initial login,
direct or via the MFA challenge, on any session) or refresh (which the
code guards behind an authenticated session) whose parsed answer carries
token `tok` and lease duration `d` stores `tok` and sets the expiry to the
current time plus `d` seconds minus the fixed 60-second safety skew. -/
theorem C5_setToken_expiry (u : UserAuth) (now : Int) (status : Nat)
    (body : BodyDecode UserAuthResponse) (r : UserAuthResponse)
    (hok : checkAndParse status body = .ok r) :
    expiryDelta = 60 ∧
    (u.isAuthenticatedAt now = true →
      (u.refresh now status body).1 =
        .ok (u.setToken r.data.clientToken.clientToken r.data.clientToken.duration now)) ∧
    (u.doMFA now status body).1 =
      .ok (u.setToken r.data.clientToken.clientToken r.data.clientToken.duration now) ∧
    (r.status ≠ AuthUserNeedsMFA →
      (u.authenticate now status body).1 =
        some (.ok (.completed
          (u.setToken r.data.clientToken.clientToken r.data.clientToken.duration now)))) ∧
    (∀ tok : String, ∀ d : Int, (u.setToken tok d now).token = tok) ∧
    (∀ tok : String, ∀ d : Int, (u.setToken tok d now).expiry = now + d - 60) := by
  refine ⟨rfl, ?_, ?_, ?_, ?_, ?_⟩
  · intro hauth
    simp [UserAuth.refresh, hauth, authRefresh, hok]
  · simp [UserAuth.doMFA, hok]
  · intro hst
    simp [UserAuth.authenticate, hok, UserAuth.processLoginResponse, hst]
  · intro tok d
    rfl
  · intro tok d
    rfl

/-- C5 witness: an initial login of a fresh unauthenticated session and a
refresh of an authenticated one, both at time 1000 with lease 3600, store
the returned token and the expiry 1000 + 3600 - 60. -/
theorem C5_witness :
    (UserAuth.authenticate
        { username := "u", password := "p", baseURL := exampleURL,
          token := "", expiry := 0, headers := [] } 1000 200
        (.ok { status := "success",
               data := { clientToken := { clientToken := "fresh", duration := 3600 },
                         stateToken := "", devices := [] } })).1 =
      some (.ok (.completed (UserAuth.setToken
        { username := "u", password := "p", baseURL := exampleURL,
          token := "", expiry := 0, headers := [] } ("fresh") 3600 1000))) ∧
    (UserAuth.refresh
        { username := "u", password := "p", baseURL := exampleURL,
          token := "old", expiry := 2000, headers := [] } 1000 200
        (.ok { status := "success",
               data := { clientToken := { clientToken := "fresh", duration := 3600 },
                         stateToken := "", devices := [] } })).1 =
      .ok (UserAuth.setToken
        { username := "u", password := "p", baseURL := exampleURL,
          token := "old", expiry := 2000, headers := [] } ("fresh") 3600 1000) ∧
    (UserAuth.setToken
        { username := "u", password := "p", baseURL := exampleURL,
          token := "", expiry := 0, headers := [] } ("fresh") 3600 1000).expiry =
      1000 + 3600 - 60 := by
  have hlogin := C5_setToken_expiry
    { username := "u", password := "p", baseURL := exampleURL,
      token := "", expiry := 0, headers := [] } 1000 200
    (.ok { status := "success",
           data := { clientToken := { clientToken := "fresh", duration := 3600 },
                     stateToken := "", devices := [] } })
    { status := "success",
      data := { clientToken := { clientToken := "fresh", duration := 3600 },
                stateToken := "", devices := [] } }
    rfl
  have hrefresh := C5_setToken_expiry
    { username := "u", password := "p", baseURL := exampleURL,
      token := "old", expiry := 2000, headers := [] } 1000 200
    (.ok { status := "success",
           data := { clientToken := { clientToken := "fresh", duration := 3600 },
                     stateToken := "", devices := [] } })
    { status := "success",
      data := { clientToken := { clientToken := "fresh", duration := 3600 },
                stateToken := "", devices := [] } }
    rfl
  exact ⟨hlogin.2.2.2.1 (by decide), hrefresh.2.1 (by decide),
    hlogin.2.2.2.2.2 ("fresh") 3600⟩

/-- C6: on an authenticated session the cloud-identity (STS) strategy's
Refresh is exactly a full re-authentication — the same signed
identity-proof exchange against the sts-identity endpoint — and the
token-refresh endpoint is never contacted. -/
theorem C6_sts_refresh_is_reauthentication (a : STSAuth) (now : Int) (signOk : Bool)
    (status : Nat) (body : BodyDecode IAMAuthResponse)
    (hauth : a.isAuthenticatedAt now = true) :
    a.refresh now signOk status body = a.authenticate now signOk status body ∧
    Endpoint.userRefresh ∉ (a.refresh now signOk status body).2 ∧
    ∀ ep, ep ∈ (a.refresh now signOk status body).2 → ep = Endpoint.stsIdentity := by
  have heq : a.refresh now signOk status body = a.authenticate now signOk status body := by
    simp [STSAuth.refresh, hauth]
  refine ⟨heq, ?_, ?_⟩
  · rw [heq]
    unfold STSAuth.authenticate
    split
    · simp
    · split
      · simp
      · split
        · simp
        · cases body <;> simp
  · intro ep hep
    rw [heq] at hep
    unfold STSAuth.authenticate at hep
    split at hep
    · simp at hep
    · split at hep
      · simp at hep
        exact hep
      · split at hep
        · simp at hep
          exact hep
        · cases body <;> simp at hep <;> exact hep

/-- C6 witness: a concrete authenticated STS session refreshing against a
200 answer re-authenticates through the sts-identity endpoint only. -/
theorem C6_witness :
    STSAuth.refresh
        { token := "t", region := "us-west-2", expiry := 100, baseURL := exampleURL,
          headers := [] } 0 true 200
        (.ok { token := "fresh", duration := 3600, metadata := [] }) =
      STSAuth.authenticate
        { token := "t", region := "us-west-2", expiry := 100, baseURL := exampleURL,
          headers := [] } 0 true 200
        (.ok { token := "fresh", duration := 3600, metadata := [] }) ∧
    Endpoint.userRefresh ∉ (STSAuth.refresh
        { token := "t", region := "us-west-2", expiry := 100, baseURL := exampleURL,
          headers := [] } 0 true 200
        (.ok { token := "fresh", duration := 3600, metadata := [] })).2 := by
  have h := C6_sts_refresh_is_reauthentication
    { token := "t", region := "us-west-2", expiry := 100, baseURL := exampleURL,
      headers := [] } 0 true 200
    (.ok { token := "fresh", duration := 3600, metadata := [] }) (by decide)
  exact ⟨h.1, h.2.1⟩

/-- C9 counterexample: a step-up (MFA) challenge response whose device list
is empty makes the `Devices[0]` access out of bounds — the login handler
is undefined (a runtime panic in Go) on that response, refuting the claim
that the access is within bounds for every such response. -/
theorem C9_counterexample :
    UserAuth.processLoginResponse
        { username := "u", password := "p", baseURL := exampleURL,
          token := "", expiry := 0, headers := [] } 0
        { status := "mfa_req",
          data := { clientToken := { clientToken := "", duration := 0 },
                    stateToken := "st", devices := [] } } = none := by
  rfl

/-- C9 amended: when the server signals the step-up requirement the second
challenge uses the identifier of the first device in the response's device
list, and that access is within bounds exactly when the device list is
non-empty — a step-up response with an empty device list makes the access
out of bounds (a runtime panic). -/
theorem C9_amended_mfa_device_access (u : UserAuth) (now : Int) (r : UserAuthResponse)
    (hmfa : r.status = AuthUserNeedsMFA) :
    ((u.processLoginResponse now r).isSome ↔ r.data.devices ≠ []) ∧
    (∀ d rest, r.data.devices = d :: rest →
        u.processLoginResponse now r = some (.mfaChallenge r.data.stateToken d.id)) := by
  constructor
  · unfold UserAuth.processLoginResponse
    rw [if_pos hmfa]
    cases hd : r.data.devices with
    | nil => simp [hd]
    | cons d rest => simp [hd]
  · intro d rest hd
    unfold UserAuth.processLoginResponse
    rw [if_pos hmfa, hd]
    rfl

/-- C9 amended witness: a concrete step-up response with one device leads
to a challenge against that device's identifier. -/
theorem C9_amended_witness :
    UserAuth.processLoginResponse
        { username := "u", password := "p", baseURL := exampleURL,
          token := "", expiry := 0, headers := [] } 0
        { status := "mfa_req",
          data := { clientToken := { clientToken := "", duration := 0 },
                    stateToken := "st",
                    devices := [{ id := "dev-1", name := "phone" }] } } =
      some (.mfaChallenge ("st") ("dev-1")) :=
  (C9_amended_mfa_device_access
      { username := "u", password := "p", baseURL := exampleURL,
        token := "", expiry := 0, headers := [] } 0
      { status := "mfa_req",
        data := { clientToken := { clientToken := "", duration := 0 },
                  stateToken := "st",
                  devices := [{ id := "dev-1", name := "phone" }] } } rfl).2
    { id := "dev-1", name := "phone" } [] rfl

/-- C3 counterexample: `SDB.Get` answering a bad-request (400) response
returns the generic wrapped error, not the decoded structured envelope, so
the claimed uniform classification fails. -/
theorem C3_counterexample :
    sdbGet ("abc") true 400 (some (.wrapped ("(400) bad request"))) .eof =
      .error (.wrapped ("Error while trying to get SDB")) := by
  rfl

/-- C3 amended: each accessor classifies only the statuses it
distinguishes.  `SDB.Get` maps 404 to the sentinel and every other
non-success status (including 400) to a generic wrapped error;
`SDB.Update` maps 404 to the sentinel, 400 to the parsed envelope and the
rest to a generic wrapped error; `Metadata.List` maps 400 to the parsed
envelope and every other non-success status (including 404) to a generic
wrapped error. -/
theorem C3_amended_error_classification (id : String) (status limit offset : Nat)
    (e : CerbError) (errBody : BodyDecode ErrorResponse)
    (body : BodyDecode SafeDepositBox) (mbody : BodyDecode MetadataResponse)
    (hid : 0 < id.length) (hidt : trimSpace id ≠ "") :
    sdbGet id true 404 (some e) body = .error .sdbNotFound ∧
    (status ≠ 404 →
      sdbGet id true status (some e) body =
        .error (.wrapped ("Error while trying to get SDB"))) ∧
    sdbUpdate id true 404 (some e) errBody body = .error .sdbNotFound ∧
    sdbUpdate id true 400 (some e) errBody body = .error (parseAPIError errBody) ∧
    (status ≠ 404 → status ≠ 400 →
      sdbUpdate id true status (some e) errBody body =
        .error (.wrapped ("Error while updating SDB"))) ∧
    metadataList limit offset true 400 (some e) errBody mbody =
      .error (parseAPIError errBody) ∧
    (status ≠ 400 →
      metadataList limit offset true status (some e) errBody mbody =
        .error (.wrapped ("Error while trying to get roles"))) := by
  have hlen : id.length ≠ 0 := Nat.pos_iff_ne_zero.mp hid
  refine ⟨?_, ?_, ?_, ?_, ?_, ?_, ?_⟩
  · simp [sdbGet, hlen]
  · intro h
    simp [sdbGet, hlen, h]
  · simp [sdbUpdate, hidt]
  · simp [sdbUpdate, hidt]
  · intro h4 h0
    simp [sdbUpdate, hidt, h4, h0]
  · simp [metadataList]
  · intro h
    simp [metadataList, h]

/-- C3 amended witness: concrete non-success responses hit the sentinel,
envelope and generic branches as described. -/
theorem C3_amended_witness :
    sdbGet ("abc") true 404 (some (.wrapped ("(404) not found"))) .eof =
      .error .sdbNotFound ∧
    sdbUpdate ("abc") true 400 (some (.wrapped ("(400) bad request")))
        (.ok { errorID := "a041", errors := [] }) .eof =
      .error (.apiEnvelope { errorID := "a041", errors := [] }) ∧
    metadataList 0 0 true 500 (some (.wrapped ("(500) server error"))) .eof .eof =
      .error (.wrapped ("Error while trying to get roles")) := by
  have h := C3_amended_error_classification ("abc") 500 0 0
    (.wrapped ("(500) server error")) (.ok { errorID := "a041", errors := [] })
    .eof .eof (by decide) (by decide)
  refine ⟨h.1, ?_, h.2.2.2.2.2.2 (by decide)⟩
  have h400 := C3_amended_error_classification ("abc") 500 0 0
    (.wrapped ("(400) bad request")) (.ok { errorID := "a041", errors := [] })
    .eof .eof (by decide) (by decide)
  exact h400.2.2.2.1

/-- Unfolding equation for one failed attempt of the retry loop. -/
theorem retryGo_cons (s : BackOffSettings) (d : Nat) (rest : List Nat)
    (elapsed interval : Nat) :
    retryGo s (d :: rest) elapsed interval =
      if s.maxElapsedTime < elapsed + d then 1
      else 1 + retryGo s rest (elapsed + d + interval) (nextInterval s interval) := by
  rfl

/-- Once the elapsed time has already passed the ceiling, at most one more
attempt is made before `NextBackOff` answers `Stop`. -/
theorem retryGo_le_one (ds : List Nat) (elapsed interval : Nat)
    (h : 600 < elapsed) : retryGo cerberusBackOff ds elapsed interval ≤ 1 := by
  cases ds with
  | nil => simp [retryGo]
  | cons d rest =>
      rw [retryGo_cons]
      rw [if_pos (by show (600:Nat) < elapsed + d; omega)]

/-- When the next sleep alone would push the elapsed time past the
ceiling, at most two attempts remain. -/
theorem retryGo_le_two (ds : List Nat) (elapsed interval : Nat)
    (h : 600 < elapsed + interval) : retryGo cerberusBackOff ds elapsed interval ≤ 2 := by
  cases ds with
  | nil => simp [retryGo]
  | cons d rest =>
      rw [retryGo_cons]
      by_cases hstop : cerberusBackOff.maxElapsedTime < elapsed + d
      · rw [if_pos hstop]
        omega
      · rw [if_neg hstop]
        have hrec := retryGo_le_one rest (elapsed + d + interval)
          (nextInterval cerberusBackOff interval) (by omega)
        omega

/-- From the 200ms interval (reached after the first sleep, so with at
least 100ms elapsed) at most three attempts remain. -/
theorem retryGo_le_three (ds : List Nat) (elapsed : Nat)
    (h : 100 ≤ elapsed) : retryGo cerberusBackOff ds elapsed 200 ≤ 3 := by
  cases ds with
  | nil => simp [retryGo]
  | cons d rest =>
      rw [retryGo_cons]
      by_cases hstop : cerberusBackOff.maxElapsedTime < elapsed + d
      · rw [if_pos hstop]
        omega
      · rw [if_neg hstop]
        have hnext : nextInterval cerberusBackOff 200 = 400 := by decide
        rw [hnext]
        have hstop600 : ¬ (600:Nat) < elapsed + d := hstop
        have hrec := retryGo_le_two rest (elapsed + d + 200) 400 (by omega)
        omega

/-- Starting from the initial 100ms interval the loop makes at most four
attempts: the sleeps 100, 200, 400 already exceed the 600ms ceiling. -/
theorem retryGo_le_four (ds : List Nat) (elapsed : Nat) :
    retryGo cerberusBackOff ds elapsed 100 ≤ 4 := by
  cases ds with
  | nil => simp [retryGo]
  | cons d rest =>
      rw [retryGo_cons]
      by_cases hstop : cerberusBackOff.maxElapsedTime < elapsed + d
      · rw [if_pos hstop]
        omega
      · rw [if_neg hstop]
        have hnext : nextInterval cerberusBackOff 100 = 200 := by decide
        rw [hnext]
        have hrec := retryGo_le_three rest (elapsed + d + 100) (by omega)
        omega

/-- C8: the executor builds its retrier from a fixed 100ms initial
interval, multiplier 2, no randomization and a 600ms elapsed-time ceiling
(and 600ms interval cap), and under those settings the retry loop always
stops after at most four attempts, whatever the request durations are. -/
theorem C8_backoff_bounded (durations : List Nat) :
    cerberusBackOff.initialInterval = 100 ∧
    cerberusBackOff.randomizationFactor = 0 ∧
    cerberusBackOff.multiplier = 2 ∧
    cerberusBackOff.maxInterval = 600 ∧
    cerberusBackOff.maxElapsedTime = 600 ∧
    retryAttempts cerberusBackOff durations ≤ 4 := by
  refine ⟨rfl, rfl, rfl, rfl, rfl, ?_⟩
  exact retryGo_le_four durations 0

/-- C10: every strategy constructor validates its URL string (with the
environment overrides unset): when the string parses to a URL with a
non-empty path or query string the constructor returns an error and no
strategy, and otherwise the parsed URL is stored unchanged as the
strategy's base address. -/
theorem C10_constructor_url_validation (parse : String → Except String URL)
    (cerberusURL token username password roleARN region : String) (u : URL)
    (hparse : parse cerberusURL = .ok u)
    (hurl : cerberusURL.length ≠ 0) (htok : token.length ≠ 0)
    (huser : username.length ≠ 0) (hpass : password.length ≠ 0)
    (harn : roleARN.length ≠ 0) (hreg : region.length ≠ 0) :
    ((u.path ≠ "" ∨ u.rawQuery ≠ "") →
      (∃ e1, newTokenAuth parse ("") ("") cerberusURL token = .error e1) ∧
      (∃ e2, newUserAuth parse ("") cerberusURL username password = .error e2) ∧
      (∃ e3, newAWSAuth parse ("") cerberusURL roleARN region = .error e3) ∧
      (∃ e4, newSTSAuth parse cerberusURL region = .error e4)) ∧
    (u.path = "" → u.rawQuery = "" →
      (∃ t, newTokenAuth parse ("") ("") cerberusURL token = .ok t ∧ t.baseURL = u) ∧
      (∃ us, newUserAuth parse ("") cerberusURL username password = .ok us ∧ us.baseURL = u) ∧
      (∃ aw, newAWSAuth parse ("") cerberusURL roleARN region = .ok aw ∧ aw.baseURL = u) ∧
      (∃ st, newSTSAuth parse cerberusURL region = .ok st ∧ st.baseURL = u)) := by
  constructor
  · intro hbad
    have hval : ∃ e0, validateURL parse cerberusURL = .error e0 := by
      by_cases hp : u.path = ""
      · have hq : u.rawQuery ≠ "" := by
          rcases hbad with h | h
          · exact absurd hp h
          · exact h
        exact ⟨("Given URL contained a query string"),
          by simp [validateURL, hparse, hp, hq]⟩
      · exact ⟨("Given URL contained a path"), by simp [validateURL, hparse, hp]⟩
    rcases hval with ⟨e0, hval⟩
    refine ⟨⟨e0, ?_⟩, ⟨e0, ?_⟩, ⟨e0, ?_⟩, ⟨e0, ?_⟩⟩
    · simp [newTokenAuth, hurl, htok, hval]
    · simp [newUserAuth, hurl, huser, hpass, hval]
    · simp [newAWSAuth, hurl, harn, hreg, hval]
    · simp [newSTSAuth, hurl, hreg, hval]
  · intro hp hq
    have hval : validateURL parse cerberusURL = .ok u := by
      simp [validateURL, hparse, hp, hq]
    refine ⟨⟨{ baseURL := u,
               headers := setHeader (setHeader (setHeader []
                 ("Content-Type") ("application/json"))
                 ("Accept") ("application/json")) ("X-Vault-Token") token,
               token := token }, ?_, rfl⟩,
            ⟨{ username := username, password := password, baseURL := u,
               token := "", expiry := 0,
               headers := [(("Content-Type"), ("application/json")),
                           (("X-Cerberus-Client"), ("CerberusGoClient"))] }, ?_, rfl⟩,
            ⟨{ region := region, roleARN := roleARN, baseURL := u,
               token := "", expiry := 0, headers := [] }, ?_, rfl⟩,
            ⟨{ region := region, baseURL := u, token := "", expiry := 0,
               headers := [(("Content-Type"), ("application/json"))] }, ?_, rfl⟩⟩
    · simp [newTokenAuth, hurl, htok, hval]
    · simp [newUserAuth, hurl, huser, hpass, hval]
    · simp [newAWSAuth, hurl, harn, hreg, hval]
    · simp [newSTSAuth, hurl, hreg, hval]

/-- C10 witness: with a concrete parse oracle, a URL carrying a path is
rejected by the token constructor while a clean URL is stored unchanged. -/
theorem C10_witness :
    (∃ e1, newTokenAuth
        (fun _ => .ok { scheme := "https", host := "h", path := "/a/path", rawQuery := "" })
        ("") ("") ("https://h/a/path") ("tok") = .error e1) ∧
    (∃ t, newTokenAuth
        (fun _ => .ok { scheme := "https", host := "h", path := "", rawQuery := "" })
        ("") ("") ("https://h") ("tok") = .ok t ∧
        t.baseURL = { scheme := "https", host := "h", path := "", rawQuery := "" }) := by
  constructor
  · exact ((C10_constructor_url_validation
      (fun _ => .ok { scheme := "https", host := "h", path := "/a/path", rawQuery := "" })
      ("https://h/a/path") ("tok") ("u") ("p") ("arn") ("r")
      { scheme := "https", host := "h", path := "/a/path", rawQuery := "" }
      rfl (by decide) (by decide) (by decide) (by decide) (by decide) (by decide)).1
      (Or.inl (by decide))).1
  · exact ((C10_constructor_url_validation
      (fun _ => .ok { scheme := "https", host := "h", path := "", rawQuery := "" })
      ("https://h") ("tok") ("u") ("p") ("arn") ("r")
      { scheme := "https", host := "h", path := "", rawQuery := "" }
      rfl (by decide) (by decide) (by decide) (by decide) (by decide) (by decide)).2
      rfl rfl).1

end Cerberus
